import Mathlib

/-!
Shallow embedding of the rimage decode-dispatch / operation-pipeline /
encoder-configuration core (src/cli/pipeline.rs, src/codecs/mozjpeg/encoder/mod.rs,
src/codecs/jpegli/decoder/mod.rs), with theorems settling the frozen claims.
-/

namespace Rimage

/-- Canonical colorspace enumeration of zune_core (the variants the sources
match on, plus representatives of the remaining variants covered by the
wildcard arm in the mozjpeg encoder). -/
inductive ColorSpace where
  | Luma | RGB | RGBA | BGR | BGRA | ARGB | YCbCr | YCCK | CMYK | Unknown
  | LumaA | HSL | HSV
deriving DecidableEq, Repr

/-- The mozjpeg native colorspace enumeration (mozjpeg::ColorSpace), variants
used by the sources. -/
inductive MozColorSpace where
  | JCS_UNKNOWN | JCS_GRAYSCALE | JCS_RGB | JCS_YCbCr | JCS_CMYK | JCS_YCCK
  | JCS_EXT_RGB | JCS_EXT_RGBX | JCS_EXT_BGR | JCS_EXT_BGRX | JCS_EXT_XBGR
  | JCS_EXT_XRGB | JCS_EXT_RGBA | JCS_EXT_BGRA | JCS_EXT_ABGR | JCS_EXT_ARGB
  | JCS_RGB565
deriving DecidableEq, Repr

/-- The jpegli native colorspace enumeration (jpegli::ColorSpace); the decoder
matches exhaustively on exactly these variants. -/
inductive JpegliColorSpace where
  | JCS_UNKNOWN | JCS_GRAYSCALE | JCS_RGB | JCS_YCbCr | JCS_CMYK | JCS_YCCK
  | JCS_EXT_RGB | JCS_EXT_RGBX | JCS_EXT_BGR | JCS_EXT_BGRX | JCS_EXT_XBGR
  | JCS_EXT_XRGB | JCS_EXT_RGBA | JCS_EXT_BGRA | JCS_EXT_ABGR | JCS_EXT_ARGB
  | JCS_RGB565
deriving DecidableEq, Repr

/-- Image formats of zune_image used by the sources. -/
inductive ImageFormat where
  | JPEG | PNG | Unknown
deriving DecidableEq, Repr

/-- Encoding-error sub-taxonomy (zune_image::errors::ImgEncodeErrors), the two
constructors produced by the mozjpeg adapter's panic conversion. -/
inductive ImgEncodeErrors where
  | Generic (msg : String)
  | GenericStatic (msg : String)
deriving DecidableEq, Repr

/-- Error taxonomy (zune_image::errors::ImageErrors), the constructors the
sources construct or match on; `IoError` stands for the std io error converted
by the question-mark operator on `read`. -/
inductive ImageErrors where
  | ImageDecoderNotIncluded (fmt : ImageFormat)
  | ImageDecoderNotImplemented (fmt : ImageFormat)
  | GenericString (msg : String)
  | GenericStr (msg : String)
  | EncodeErrors (e : ImgEncodeErrors)
  | IoError
deriving DecidableEq, Repr

/-- The canonical in-memory image (zune_image::image::Image): dimensions,
colorspace and a flattened 8-bit pixel buffer. -/
structure Image where
  width : Nat
  height : Nat
  colorspace : ColorSpace
  data : List Nat
deriving DecidableEq, Repr

/-- Image::dimensions. -/
def Image.dimensions (img : Image) : Nat × Nat := (img.width, img.height)

/-! ## Decode dispatcher (pipeline.rs, fn decode) -/

/-- The hardcoded path the source reads in the fallback branch of `decode`. -/
def fixturePath : String := "tests/files/avif/f1t.avif"

/-- ASCII lowercasing of one character. -/
def asciiLower (c : Char) : Char :=
  if 65 ≤ c.toNat ∧ c.toNat ≤ 90 then Char.ofNat (c.toNat + 32) else c

/-- Eq_ignore_ascii_case on strings, as used for the webp extension test. -/
def eqIgnoreAsciiCase (a b : String) : Bool :=
  a.data.map asciiLower == b.data.map asciiLower

/-- Environment of external capabilities consumed by `decode`: the universal
decoder (Image::open), the filesystem (read), the avif content sniffer
(libavif::is_avif), the two specialized decoders (try_new + decode collapsed
into one call each), and path-extension extraction (Path::extension). -/
structure DecodeEnv where
  imageOpen : String → Except ImageErrors Image
  fileContents : String → Except ImageErrors (List Nat)
  isAvif : List Nat → Bool
  avifDecode : List Nat → Except ImageErrors Image
  webpDecode : List Nat → Except ImageErrors Image
  extensionOf : String → Option String

/-- Whether a universal-decoder error is the decoder-not-included
classification that triggers the fallback branch. -/
def isDecoderNotIncluded : ImageErrors → Bool
  | ImageErrors.ImageDecoderNotIncluded _ => true
  | _ => false

/-- Decode dispatcher, embedded from pipeline.rs `decode`: try the universal
decoder; on an ImageDecoderNotIncluded failure read the fixture path
"tests/files/avif/f1t.avif", try the avif decoder when the sniffer accepts
that content, else the webp decoder when the requested path's extension is
"webp" case-insensitively, else fail with ImageDecoderNotImplemented Unknown;
every other universal-decoder error is returned unchanged. -/
def decode (p : String) (env : DecodeEnv) : Except ImageErrors Image :=
  match env.imageOpen p with
  | Except.ok img => Except.ok img
  | Except.error e =>
    match e with
    | ImageErrors.ImageDecoderNotIncluded _ =>
      match env.fileContents fixturePath with
      | Except.error ioe => Except.error ioe
      | Except.ok file_content =>
        if env.isAvif file_content then
          env.avifDecode file_content
        else if (env.extensionOf p).any (fun s => eqIgnoreAsciiCase s "webp") then
          env.webpDecode file_content
        else
          Except.error (ImageErrors.ImageDecoderNotImplemented ImageFormat.Unknown)
    | _ => Except.error e

/-! ## Operation pipeline builder (pipeline.rs, fn operations) -/

/-- Resampling algorithm selection (fast_image_resize::ResizeAlg); the source
only constructs it via `Into` from a filter option or `Default::default()`,
so the embedding keeps the filter tag plus a distinguished default. -/
inductive ResizeAlg where
  | Nearest | Convolution (tag : Nat) | SuperSampling (tag : Nat) | Interpolation (tag : Nat)
deriving DecidableEq, Repr

/-- Default::default() for ResizeAlg. -/
def ResizeAlg.defaultAlg : ResizeAlg := ResizeAlg.Convolution 0

/-- Modelled from the spec: `ResizeFilter` lives in src/cli/preprocessors,
which is not under src/; it converts into a resize algorithm. -/
structure ResizeFilter where
  toAlg : ResizeAlg
deriving DecidableEq, Repr

/-- Modelled from the spec: `ResizeValue` lives in src/cli/preprocessors,
which is not under src/; per the spec it carries a relative/absolute target
size and `map_dimensions` resolves it against given current dimensions. The
embedding keeps the resolution map abstract as a function field. -/
structure ResizeValue where
  mapDimensions : Nat → Nat → Nat × Nat

/-- A constructed pipeline operation (the two kinds the builder creates).
The quantize dithering is stored as the raw u8 percentage; the source divides
it by 100 as f32 when constructing Quantize, a pure injective rescaling. -/
inductive Operation where
  | resize (w h : Nat) (alg : ResizeAlg)
  | quantize (value : Nat) (ditheringPercent : Option Nat)

/-- The subset of clap::ArgMatches the operations builder reads: for each
operation kind, the occurrence values zipped with their argument-slot indices
(get_many zipped with indices_of), plus the single-valued filter/dithering
options. -/
structure OpMatches where
  resize : Option (List (ResizeValue × Nat))
  filter : Option ResizeFilter
  quantization : Option (List (Nat × Nat))
  dithering : Option Nat

/-- Sorted-by-key insertion, the behavior of BTreeMap::insert as observed
through iteration order: keys are kept strictly increasing, an equal key's
value is replaced. -/
def btInsert (k : Nat) (v : Operation) : List (Nat × Operation) → List (Nat × Operation)
  | [] => [(k, v)]
  | (k₀, v₀) :: rest =>
    if k < k₀ then (k, v) :: (k₀, v₀) :: rest
    else if k = k₀ then (k, v) :: rest
    else (k₀, v₀) :: btInsert k v rest

/-- The resize entries the builder constructs: the image dimensions are read
once before the loop, each occurrence value resolves its target against that
same pair, and the filter defaults when the option is absent. -/
def resizeEntries (m : OpMatches) (img : Image) : List (Nat × Operation) :=
  match m.resize with
  | none => []
  | some values =>
    let w := img.dimensions.1
    let h := img.dimensions.2
    values.map (fun p =>
      let wh := p.1.mapDimensions w h
      (p.2, Operation.resize wh.1 wh.2
        ((m.filter.map ResizeFilter.toAlg).getD ResizeAlg.defaultAlg)))

/-- The quantization entries the builder constructs. -/
def quantizeEntries (m : OpMatches) : List (Nat × Operation) :=
  match m.quantization with
  | none => []
  | some values =>
    values.map (fun p => (p.2, Operation.quantize p.1 m.dithering))

/-- Operation pipeline builder, embedded from pipeline.rs `operations`: start
from the empty BTreeMap, insert each resize occurrence at its argument-slot
index, then each quantization occurrence at its index; the map iterates in
key order. -/
def operations (m : OpMatches) (img : Image) : List (Nat × Operation) :=
  (resizeEntries m img ++ quantizeEntries m).foldl (fun acc p => btInsert p.1 p.2 acc) []

/-! ## Encoder configurator (pipeline.rs, fn encoder) -/

/-- Panic payload of std::panic: either a String (downcastable) or some other
boxed value. -/
inductive PanicPayload where
  | str (s : String)
  | other
deriving DecidableEq, Repr

/-- Observable outcome of running a Rust function that may return a value,
return an error, or terminate abnormally by panicking. -/
inductive RunResult (ε α : Type) where
  | ok (a : α)
  | err (e : ε)
  | panic (p : PanicPayload)
deriving DecidableEq, Repr

/-- The named mozjpeg::qtable base-table constants looked up by the mozjpeg
branch of the encoder (luma/chroma variants are distinct constants for the
AnnexK, MSSSIM and PSNRHVS families). -/
inductive QTableBase where
  | AhumadaWatsonPeterson | AnnexK_Luma | AnnexK_Chroma | Flat
  | KleinSilversteinCarney | MSSSIM_Luma | MSSSIM_Chroma | NRobidoux
  | PSNRHVS_Luma | PSNRHVS_Chroma | PetersonAhumadaWatson | WatsonTaylorBorthwick
deriving DecidableEq, Repr

/-- A quantization table produced by QTable::scaled; the scaling itself lives
in the mozjpeg crate, so the embedding records the call: the base table and
the two quality arguments passed. The quality arguments are the u8 option
values (the cast u8 to f32 is exact and injective on this range). -/
structure ScaledQTable where
  base : QTableBase
  lumaQuality : Nat
  chromaQuality : Nat
deriving DecidableEq, Repr

/-- QTable::scaled as recorded by the embedding. -/
def QTableBase.scaled (b : QTableBase) (lq cq : Nat) : ScaledQTable := ⟨b, lq, cq⟩

/-- MozJpegOptions (src/codecs/mozjpeg/encoder/mod.rs). Quality fields hold
the u8 option values the source casts to f32. -/
structure MozJpegOptions where
  quality : Nat
  progressive : Bool
  optimize_coding : Bool
  smoothing : Nat
  color_space : MozColorSpace
  trellis_multipass : Bool
  chroma_subsample : Option Nat
  luma_qtable : Option ScaledQTable
  chroma_qtable : Option ScaledQTable
deriving DecidableEq, Repr

/-- MozJpegOptions::default. -/
def MozJpegOptions.defaultOptions : MozJpegOptions :=
  { quality := 75, progressive := true, optimize_coding := true, smoothing := 0
  , color_space := MozColorSpace.JCS_YCbCr, trellis_multipass := false
  , chroma_subsample := none, luma_qtable := none, chroma_qtable := none }

/-- Zune_core EncoderOptions, restricted to the fields the jpeg branch
touches; set_quality and set_jpeg_encode_progressive are by-value builder
methods on this Copy type, returning an updated copy. -/
structure EncoderOptions where
  quality : Nat
  jpeg_encode_progressive : Bool
deriving DecidableEq, Repr

/-- EncoderOptions::default (zune_core defaults: quality 80, progressive
encoding off). -/
def EncoderOptions.defaultOptions : EncoderOptions :=
  { quality := 80, jpeg_encode_progressive := false }

/-- EncoderOptions::set_quality: consumes the copy, returns the updated one. -/
def EncoderOptions.set_quality (o : EncoderOptions) (q : Nat) : EncoderOptions :=
  { o with quality := q }

/-- EncoderOptions::set_jpeg_encode_progressive. -/
def EncoderOptions.set_jpeg_encode_progressive (o : EncoderOptions) (b : Bool) : EncoderOptions :=
  { o with jpeg_encode_progressive := b }

/-- The encoder value boxed by the dispatch, tagged by codec with the options
object each branch constructs. -/
inductive EncoderChoice where
  | farbfeld
  | jpeg (options : EncoderOptions)
  | jpeg_xl
  | mozjpeg (options : MozJpegOptions)
  | png
  | ppm
  | qoi
deriving DecidableEq, Repr

/-- The sub-option values of one subcommand's clap::ArgMatches that the
encoder branches read (get_one / get_flag by key). -/
structure SubMatches where
  quality : Option Nat
  chroma_quality : Option Nat
  progressive : Bool
  baseline : Bool
  no_optimize_coding : Bool
  smoothing : Option Nat
  colorspace : Option String
  multipass : Bool
  subsample : Option Nat
  qtable : Option String
deriving DecidableEq, Repr

/-- ArgMatches::subcommand as seen by the encoder dispatch. -/
structure Matches where
  subcommand : Option (String × SubMatches)
deriving DecidableEq, Repr

/-- The colorspace-name match of the mozjpeg branch; names outside the closed
set hit the unreachable arm. -/
def parseMozColorSpace : String → Option MozColorSpace
  | "ycbcr" => some MozColorSpace.JCS_YCbCr
  | "rgb" => some MozColorSpace.JCS_EXT_RGB
  | "grayscale" => some MozColorSpace.JCS_GRAYSCALE
  | _ => none

/-- The luma-qtable-name match of the mozjpeg branch; names outside the closed
set hit the unreachable arm. -/
def lumaQTableOf : String → Option QTableBase
  | "AhumadaWatsonPeterson" => some QTableBase.AhumadaWatsonPeterson
  | "AnnexK" => some QTableBase.AnnexK_Luma
  | "Flat" => some QTableBase.Flat
  | "KleinSilversteinCarney" => some QTableBase.KleinSilversteinCarney
  | "MSSSIM" => some QTableBase.MSSSIM_Luma
  | "NRobidoux" => some QTableBase.NRobidoux
  | "PSNRHVS" => some QTableBase.PSNRHVS_Luma
  | "PetersonAhumadaWatson" => some QTableBase.PetersonAhumadaWatson
  | "WatsonTaylorBorthwick" => some QTableBase.WatsonTaylorBorthwick
  | _ => none

/-- The chroma-qtable-name match of the mozjpeg branch. -/
def chromaQTableOf : String → Option QTableBase
  | "AhumadaWatsonPeterson" => some QTableBase.AhumadaWatsonPeterson
  | "AnnexK" => some QTableBase.AnnexK_Chroma
  | "Flat" => some QTableBase.Flat
  | "KleinSilversteinCarney" => some QTableBase.KleinSilversteinCarney
  | "MSSSIM" => some QTableBase.MSSSIM_Chroma
  | "NRobidoux" => some QTableBase.NRobidoux
  | "PSNRHVS" => some QTableBase.PSNRHVS_Chroma
  | "PetersonAhumadaWatson" => some QTableBase.PetersonAhumadaWatson
  | "WatsonTaylorBorthwick" => some QTableBase.WatsonTaylorBorthwick
  | _ => none

/-- The mozjpeg branch of `encoder`: unwraps the required quality and
colorspace options (a missing value or an out-of-set name panics, mirroring
unwrap and the unreachable arms), derives chroma_quality as the sub-option or
quality, and builds MozJpegOptions with both qtables looked up and scaled
when a family name is supplied. -/
def buildMozOptions (m : SubMatches) : RunResult ImageErrors MozJpegOptions :=
  match m.quality with
  | none => RunResult.panic (PanicPayload.str "called Option::unwrap on a None value")
  | some quality =>
    let chroma_quality := (m.chroma_quality.map (fun q => q)).getD quality
    match m.colorspace with
    | none => RunResult.panic (PanicPayload.str "called Option::unwrap on a None value")
    | some csName =>
      match parseMozColorSpace csName with
      | none => RunResult.panic (PanicPayload.str "internal error: entered unreachable code")
      | some cs =>
        match m.qtable with
        | none =>
          RunResult.ok
            { quality := quality
            , progressive := !m.baseline
            , optimize_coding := !m.no_optimize_coding
            , smoothing := m.smoothing.getD 0
            , color_space := cs
            , trellis_multipass := m.multipass
            , chroma_subsample := m.subsample
            , luma_qtable := none
            , chroma_qtable := none }
        | some famName =>
          match lumaQTableOf famName, chromaQTableOf famName with
          | some lumaBase, some chromaBase =>
            RunResult.ok
              { quality := quality
              , progressive := !m.baseline
              , optimize_coding := !m.no_optimize_coding
              , smoothing := m.smoothing.getD 0
              , color_space := cs
              , trellis_multipass := m.multipass
              , chroma_subsample := m.subsample
              , luma_qtable := some (lumaBase.scaled quality quality)
              , chroma_qtable := some (chromaBase.scaled chroma_quality chroma_quality) }
          | _, _ => RunResult.panic (PanicPayload.str "internal error: entered unreachable code")

/-- The jpeg branch of `encoder`: the builder-method return values are bound
and discarded exactly as the source statements discard them, so the returned
options are the ones `options` was initialized to. -/
def buildJpegOptions (m : SubMatches) : EncoderOptions :=
  let options := EncoderOptions.defaultOptions
  let _discardedQuality :=
    match m.quality with
    | some quality => some (options.set_quality quality)
    | none => none
  let _discardedProgressive := options.set_jpeg_encode_progressive m.progressive
  options

/-- Encoder dispatch, embedded from pipeline.rs `encoder`: a fixed lookup
from subcommand name to a constructed encoder plus canonical extension; an
unrecognized name is a GenericString "Encoder ... not found" error; a missing
subcommand is the GenericStr "No encoder used" error. -/
def encoder (ms : Matches) : RunResult ImageErrors (EncoderChoice × String) :=
  match ms.subcommand with
  | some (name, m) =>
    match name with
    | "farbfeld" => RunResult.ok (EncoderChoice.farbfeld, "ff")
    | "jpeg" => RunResult.ok (EncoderChoice.jpeg (buildJpegOptions m), "jpg")
    | "jpeg_xl" => RunResult.ok (EncoderChoice.jpeg_xl, "jxl")
    | "mozjpeg" =>
      match buildMozOptions m with
      | RunResult.ok options => RunResult.ok (EncoderChoice.mozjpeg options, "jpg")
      | RunResult.err e => RunResult.err e
      | RunResult.panic p => RunResult.panic p
    | "png" => RunResult.ok (EncoderChoice.png, "png")
    | "ppm" => RunResult.ok (EncoderChoice.ppm, "ppm")
    | "qoi" => RunResult.ok (EncoderChoice.qoi, "qoi")
    | _ =>
      RunResult.err (ImageErrors.GenericString ("Encoder \"" ++ name ++ "\" not found"))
  | none => RunResult.err (ImageErrors.GenericStr "No encoder used")

/-! ## MozJpeg encoder adapter (src/codecs/mozjpeg/encoder/mod.rs) -/

/-- Sequencing of fallible, possibly-panicking steps: the Rust question-mark
operator plus panic propagation. -/
def RunResult.andThen {ε α β : Type} : RunResult ε α → (α → RunResult ε β) → RunResult ε β
  | RunResult.ok a, f => f a
  | RunResult.err e, _ => RunResult.err e
  | RunResult.panic p, _ => RunResult.panic p

/-- The canonical-to-native colorspace match computing `format` in
encode_inner; every variant not listed explicitly falls to JCS_UNKNOWN. -/
def csToMoz : ColorSpace → MozColorSpace
  | ColorSpace.RGB => MozColorSpace.JCS_RGB
  | ColorSpace.RGBA => MozColorSpace.JCS_EXT_RGBA
  | ColorSpace.YCbCr => MozColorSpace.JCS_YCbCr
  | ColorSpace.Luma => MozColorSpace.JCS_GRAYSCALE
  | ColorSpace.YCCK => MozColorSpace.JCS_YCCK
  | ColorSpace.CMYK => MozColorSpace.JCS_CMYK
  | ColorSpace.BGR => MozColorSpace.JCS_EXT_BGR
  | ColorSpace.BGRA => MozColorSpace.JCS_EXT_BGRA
  | ColorSpace.ARGB => MozColorSpace.JCS_EXT_ARGB
  | ColorSpace.Unknown => MozColorSpace.JCS_UNKNOWN
  | _ => MozColorSpace.JCS_UNKNOWN

/-- The set_color_space argument match in encode_inner: grayscale, CMYK and
YCCK input formats force a matching output and emit a warning (the Bool);
every other format uses the configured option without warning. -/
def outputColorSpace (format configured : MozColorSpace) : MozColorSpace × Bool :=
  match format with
  | MozColorSpace.JCS_GRAYSCALE => (MozColorSpace.JCS_GRAYSCALE, true)
  | MozColorSpace.JCS_CMYK => (MozColorSpace.JCS_CMYK, true)
  | MozColorSpace.JCS_YCCK => (MozColorSpace.JCS_YCCK, true)
  | _ => (configured, false)

/-- Everything encode_inner configures on the native Compress object before
invoking the compression calls, computed exactly as the source does. -/
structure MozEncodeSettings where
  format : MozColorSpace
  width : Nat
  height : Nat
  quality : Nat
  progressiveMode : Bool
  optimize_coding : Bool
  smoothing : Nat
  outColorSpace : MozColorSpace
  warnedOverride : Bool
  useScansInTrellis : Bool
  chromaSampling : Option Nat
  luma_qtable : Option ScaledQTable
  chroma_qtable : Option ScaledQTable
deriving DecidableEq, Repr

/-- The configuration stage of encode_inner. -/
def encodeSettings (opts : MozJpegOptions) (img : Image) : MozEncodeSettings :=
  let format := csToMoz img.colorspace
  let out := outputColorSpace format opts.color_space
  { format := format
  , width := img.width
  , height := img.height
  , quality := opts.quality
  , progressiveMode := opts.progressive
  , optimize_coding := opts.optimize_coding
  , smoothing := opts.smoothing
  , outColorSpace := out.1
  , warnedOverride := out.2
  , useScansInTrellis := opts.trellis_multipass
  , chromaSampling := opts.chroma_subsample
  , luma_qtable := opts.luma_qtable
  , chroma_qtable := opts.chroma_qtable }

/-- Behavior of the wrapped native mozjpeg calls made inside the
catch_unwind closure (start_compress, write_scanlines, finish): each may
return a value, report an error, or panic. -/
structure MozNative where
  startCompress : MozEncodeSettings → RunResult ImageErrors Unit
  writeScanlines : List Nat → RunResult ImageErrors Unit
  finish : RunResult ImageErrors (List Nat)

/-- The closure passed to catch_unwind in encode_inner: configure, start the
compressor, write the flattened scanlines, finish. -/
def mozjpegEncodeBody (opts : MozJpegOptions) (img : Image) (nb : MozNative) :
    RunResult ImageErrors (List Nat) :=
  let settings := encodeSettings opts img
  (nb.startCompress settings).andThen fun _ =>
    (nb.writeScanlines img.data).andThen fun _ => nb.finish

/-- MozJpegEncoder::encode_inner: the closure runs under catch_unwind and a
panic is converted by map_err into an EncodeErrors value (Generic when the
payload downcasts to String, GenericStatic otherwise); a library-reported
error propagates through the question mark unchanged. -/
def mozjpegEncodeInner (opts : MozJpegOptions) (img : Image) (nb : MozNative) :
    RunResult ImageErrors (List Nat) :=
  match mozjpegEncodeBody opts img nb with
  | RunResult.ok v => RunResult.ok v
  | RunResult.err e => RunResult.err e
  | RunResult.panic (PanicPayload.str s) =>
    RunResult.err (ImageErrors.EncodeErrors (ImgEncodeErrors.Generic s))
  | RunResult.panic PanicPayload.other =>
    RunResult.err (ImageErrors.EncodeErrors
      (ImgEncodeErrors.GenericStatic "Unknown error occurred during encoding"))

/-! ## Jpegli decoder adapter (src/codecs/jpegli/decoder/mod.rs) -/

/-- The problematic-variant test in JpegliDecoder::decode: exactly the four
listed native colorspaces require a forced conversion. -/
def shouldTransformColorSpace (cs : JpegliColorSpace) : Bool :=
  match cs with
  | JpegliColorSpace.JCS_EXT_XBGR => true
  | JpegliColorSpace.JCS_EXT_XRGB => true
  | JpegliColorSpace.JCS_EXT_ABGR => true
  | JpegliColorSpace.JCS_RGB565 => true
  | _ => false

/-- The native-to-canonical colorspace match in JpegliDecoder::decode,
exhaustive over the native enumeration. -/
def jpegliToCanonical : JpegliColorSpace → ColorSpace
  | JpegliColorSpace.JCS_GRAYSCALE => ColorSpace.Luma
  | JpegliColorSpace.JCS_RGB => ColorSpace.RGB
  | JpegliColorSpace.JCS_YCbCr => ColorSpace.YCbCr
  | JpegliColorSpace.JCS_CMYK => ColorSpace.CMYK
  | JpegliColorSpace.JCS_YCCK => ColorSpace.YCCK
  | JpegliColorSpace.JCS_EXT_RGB => ColorSpace.RGB
  | JpegliColorSpace.JCS_EXT_RGBX => ColorSpace.RGBA
  | JpegliColorSpace.JCS_EXT_BGR => ColorSpace.BGR
  | JpegliColorSpace.JCS_EXT_BGRX => ColorSpace.BGRA
  | JpegliColorSpace.JCS_EXT_XBGR => ColorSpace.Unknown
  | JpegliColorSpace.JCS_EXT_XRGB => ColorSpace.Unknown
  | JpegliColorSpace.JCS_EXT_RGBA => ColorSpace.RGBA
  | JpegliColorSpace.JCS_EXT_BGRA => ColorSpace.BGRA
  | JpegliColorSpace.JCS_EXT_ABGR => ColorSpace.Unknown
  | JpegliColorSpace.JCS_EXT_ARGB => ColorSpace.ARGB
  | JpegliColorSpace.JCS_RGB565 => ColorSpace.Unknown
  | JpegliColorSpace.JCS_UNKNOWN => ColorSpace.Unknown

/-- The not-yet-started jpegli decompressor as returned by from_mem; the
adapter only queries its colorspace. -/
structure JDecompressState where
  colorSpace : JpegliColorSpace
deriving DecidableEq, Repr

/-- The started jpegli decompressor (after to_colorspace or raw): the
dimensions and colorspace the adapter reads from it. -/
structure JImageState where
  width : Nat
  height : Nat
  colorSpace : JpegliColorSpace
deriving DecidableEq, Repr

/-- Behavior of the wrapped native jpegli calls made inside the catch_unwind
closure: from_mem, to_colorspace at a requested colorspace, raw,
read_scanlines and finish_into_inner; each may return, error or panic. -/
structure JpegliNative where
  fromMem : RunResult Unit JDecompressState
  toColorSpace : JpegliColorSpace → RunResult Unit JImageState
  rawDecode : RunResult Unit JImageState
  readScanlines : JImageState → RunResult Unit Unit
  finishIntoInner : JImageState → RunResult Unit (List Nat)

/-- The closure passed to catch_unwind in JpegliDecoder::decode: open the
decompressor, force a conversion to JCS_YCbCr when the native colorspace is
one of the problematic variants and otherwise take the raw path, read the
scanlines, then assemble the canonical image from the extracted pixels,
dimensions and the mapped colorspace. -/
def jpegliDecodeBody (nb : JpegliNative) : RunResult Unit Image :=
  nb.fromMem.andThen fun d =>
    let source :=
      if shouldTransformColorSpace d.colorSpace then
        nb.toColorSpace JpegliColorSpace.JCS_YCbCr
      else
        nb.rawDecode
    source.andThen fun image =>
      (nb.readScanlines image).andThen fun _ =>
        (nb.finishIntoInner image).andThen fun pixels =>
          RunResult.ok
            (Image.mk image.width image.height (jpegliToCanonical image.colorSpace) pixels)

/-- The panic message of Result::unwrap applied to an Err value. -/
def unwrapPanicMessage : String := "called Result::unwrap on an Err value"

/-- JpegliDecoder::decode: the closure runs under catch_unwind, but the
source calls .unwrap() on the catch_unwind result, so a captured panic is
re-raised as a new panic rather than converted; only the io-error case is
mapped by map_err to the GenericString "error with jpegli" error. -/
def jpegliDecode (nb : JpegliNative) : RunResult ImageErrors Image :=
  match jpegliDecodeBody nb with
  | RunResult.ok img => RunResult.ok img
  | RunResult.err _ => RunResult.err (ImageErrors.GenericString "error with jpegli")
  | RunResult.panic _ => RunResult.panic (PanicPayload.str unwrapPanicMessage)

/-- The processing the decode applies to a chosen scanline source (the value
of the conversion branch): read the scanlines, extract the pixels, assemble
the canonical image, with the same outer boundary the source applies around
the whole closure. -/
def jpegliProcessSource (nb : JpegliNative) (source : RunResult Unit JImageState) :
    RunResult ImageErrors Image :=
  match source.andThen (fun image =>
      (nb.readScanlines image).andThen fun _ =>
        (nb.finishIntoInner image).andThen fun pixels =>
          RunResult.ok
            (Image.mk image.width image.height (jpegliToCanonical image.colorSpace) pixels)) with
  | RunResult.ok img => RunResult.ok img
  | RunResult.err _ => RunResult.err (ImageErrors.GenericString "error with jpegli")
  | RunResult.panic _ => RunResult.panic (PanicPayload.str unwrapPanicMessage)

/-! ## Concrete fixtures used by the theorems -/

/-- A small concrete image for decode environments. -/
def witnessImage : Image := ⟨1, 1, ColorSpace.RGB, [0]⟩

/-- A native mozjpeg behavior where every wrapped call succeeds. -/
def mozNativeOk : MozNative :=
  { startCompress := fun _ => RunResult.ok ()
  , writeScanlines := fun _ => RunResult.ok ()
  , finish := RunResult.ok [7] }

/-- A concrete grayscale input image. -/
def lumaImage : Image := ⟨2, 1, ColorSpace.Luma, [0, 1]⟩

/-- A native jpegli behavior where every wrapped call panics with a String
payload. -/
def jpegliNativePanics : JpegliNative :=
  { fromMem := RunResult.panic (PanicPayload.str "native fault")
  , toColorSpace := fun _ => RunResult.panic (PanicPayload.str "native fault")
  , rawDecode := RunResult.panic (PanicPayload.str "native fault")
  , readScanlines := fun _ => RunResult.panic (PanicPayload.str "native fault")
  , finishIntoInner := fun _ => RunResult.panic (PanicPayload.str "native fault") }

/-- A native mozjpeg behavior where every wrapped call panics with a String
payload. -/
def mozNativePanics : MozNative :=
  { startCompress := fun _ => RunResult.panic (PanicPayload.str "native fault")
  , writeScanlines := fun _ => RunResult.panic (PanicPayload.str "native fault")
  , finish := RunResult.panic (PanicPayload.str "native fault") }

/-- A decode environment where the universal decoder reports
decoder-not-included and no specialized predicate holds. -/
def envNoPredicate : DecodeEnv :=
  { imageOpen := fun _ => Except.error (ImageErrors.ImageDecoderNotIncluded ImageFormat.Unknown)
  , fileContents := fun _ => Except.ok [1, 2, 3]
  , isAvif := fun _ => false
  , avifDecode := fun _ => Except.ok witnessImage
  , webpDecode := fun _ => Except.ok witnessImage
  , extensionOf := fun _ => some "png" }

/-- A decode environment where the requested file's content is avif but the
hardcoded fixture file's content is not: the sniffer accepts exactly the
content of "input.avif". -/
def envFixtureBug : DecodeEnv :=
  { imageOpen := fun _ => Except.error (ImageErrors.ImageDecoderNotIncluded ImageFormat.Unknown)
  , fileContents := fun path => if path = "input.avif" then Except.ok [97] else Except.ok [0]
  , isAvif := fun content => content == [97]
  , avifDecode := fun _ => Except.ok witnessImage
  , webpDecode := fun _ => Except.ok witnessImage
  , extensionOf := fun _ => some "avif" }

/-- A resize occurrence value whose resolution keeps the given dimensions. -/
def rv : ResizeValue := ⟨fun w h => (w, h)⟩

/-- A concrete 4 by 3 image. -/
def exampleImage : Image := ⟨4, 3, ColorSpace.RGB, []⟩

/-- A configuration with resize at slot index 2 and quantize at slot index 0. -/
def mA : OpMatches := ⟨some [(rv, 2)], none, some [(7, 0)], none⟩

/-- The same configuration with the two indices swapped. -/
def mB : OpMatches := ⟨some [(rv, 0)], none, some [(7, 2)], none⟩

/-! ## Claims about the decode dispatcher -/

/-- C4: decode falls back to the specialized decoders exactly when the
universal decoder fails with the decoder-not-included classification; every
other universal-decoder error is returned unchanged, a universal success is
returned unchanged, and in the decoder-not-included case with no specialized
predicate holding the result is the terminal ImageDecoderNotImplemented
Unknown error, never a specialized decoder's internal error. -/
theorem C4_decode_fallback_classification :
    (∀ (p : String) (env : DecodeEnv) (img : Image),
      env.imageOpen p = Except.ok img → decode p env = Except.ok img) ∧
    (∀ (p : String) (env : DecodeEnv) (e : ImageErrors),
      env.imageOpen p = Except.error e → isDecoderNotIncluded e = false →
      decode p env = Except.error e) ∧
    (∀ (p : String) (env : DecodeEnv) (fmt : ImageFormat) (content : List Nat),
      env.imageOpen p = Except.error (ImageErrors.ImageDecoderNotIncluded fmt) →
      env.fileContents fixturePath = Except.ok content →
      env.isAvif content = true →
      decode p env = env.avifDecode content) ∧
    (∀ (p : String) (env : DecodeEnv) (fmt : ImageFormat) (content : List Nat),
      env.imageOpen p = Except.error (ImageErrors.ImageDecoderNotIncluded fmt) →
      env.fileContents fixturePath = Except.ok content →
      env.isAvif content = false →
      (env.extensionOf p).any (fun s => eqIgnoreAsciiCase s "webp") = true →
      decode p env = env.webpDecode content) ∧
    (∀ (p : String) (env : DecodeEnv) (fmt : ImageFormat) (content : List Nat),
      env.imageOpen p = Except.error (ImageErrors.ImageDecoderNotIncluded fmt) →
      env.fileContents fixturePath = Except.ok content →
      env.isAvif content = false →
      (env.extensionOf p).any (fun s => eqIgnoreAsciiCase s "webp") = false →
      decode p env
        = Except.error (ImageErrors.ImageDecoderNotImplemented ImageFormat.Unknown)) := by
  refine ⟨?_, ?_, ?_, ?_, ?_⟩
  · intro p env img h
    simp [decode, h]
  · intro p env e h hni
    cases e with
    | ImageDecoderNotIncluded fmt => simp [isDecoderNotIncluded] at hni
    | ImageDecoderNotImplemented fmt => simp [decode, h]
    | GenericString s => simp [decode, h]
    | GenericStr s => simp [decode, h]
    | EncodeErrors e => simp [decode, h]
    | IoError => simp [decode, h]
  · intro p env fmt content h hc ha
    simp [decode, h, hc, ha]
  · intro p env fmt content h hc ha hw
    simp [decode, h, hc, ha, hw]
  · intro p env fmt content h hc ha hw
    simp [decode, h, hc, ha, hw]

/-- C4 witness: the theorem applied to the no-predicate environment at a
concrete path. -/
theorem C4_decode_fallback_classification_witness :
    decode "input.bin" envNoPredicate
      = Except.error (ImageErrors.ImageDecoderNotImplemented ImageFormat.Unknown) :=
  C4_decode_fallback_classification.2.2.2.2 "input.bin" envNoPredicate
    ImageFormat.Unknown [1, 2, 3] rfl rfl rfl (by decide)

/-- C2 counterexample evidence: the fallback branch reads the hardcoded path
"tests/files/avif/f1t.avif", not the requested file. With an environment
where the requested file "input.avif" has avif content but the fixture file
does not, the code returns the not-implemented error even though the avif
sniffer accepts the requested file's own content, so the fallback was applied
to the fixture content rather than the input's content. -/
theorem C2_fallback_reads_fixture_not_input :
    decode "input.avif" envFixtureBug
      = Except.error (ImageErrors.ImageDecoderNotImplemented ImageFormat.Unknown) ∧
    envFixtureBug.fileContents "input.avif" = Except.ok [97] ∧
    envFixtureBug.isAvif [97] = true ∧
    envFixtureBug.fileContents fixturePath = Except.ok [0] ∧
    envFixtureBug.isAvif [0] = false := by
  refine ⟨?_, rfl, rfl, ?_, rfl⟩
  · rfl
  · rfl

/-! ## Claims about the encoder configurator -/

/-- The mozjpeg options builder never produces a library-error result: its
failure modes are panics (unwrap on missing required options, unreachable
arms), so the encoder dispatch's only error results come from the dispatch
itself. -/
theorem buildMozOptions_no_err (m : SubMatches) (e : ImageErrors) :
    buildMozOptions m ≠ RunResult.err e := by
  unfold buildMozOptions
  intro h
  split at h
  · exact RunResult.noConfusion h
  · split at h
    · exact RunResult.noConfusion h
    · split at h
      · exact RunResult.noConfusion h
      · split at h
        · exact RunResult.noConfusion h
        · split at h
          · exact RunResult.noConfusion h
          · exact RunResult.noConfusion h

/-- C9: the encoder dispatch has exactly two error results, both terminal and
distinguishable: an unrecognized subcommand name yields the GenericString
"Encoder ... not found" error, a missing subcommand yields the GenericStr
"No encoder used" error, and every error the dispatch can return is one of
these two. -/
theorem C9_encoder_dispatch_errors :
    (∀ (name : String) (m : SubMatches),
      name ∉ ["farbfeld", "jpeg", "jpeg_xl", "mozjpeg", "png", "ppm", "qoi"] →
      encoder ⟨some (name, m)⟩
        = RunResult.err (ImageErrors.GenericString ("Encoder \"" ++ name ++ "\" not found"))) ∧
    (encoder ⟨none⟩ = RunResult.err (ImageErrors.GenericStr "No encoder used")) ∧
    (∀ (name : String),
      ImageErrors.GenericString ("Encoder \"" ++ name ++ "\" not found")
        ≠ ImageErrors.GenericStr "No encoder used") ∧
    (∀ (ms : Matches) (e : ImageErrors), encoder ms = RunResult.err e →
      (∃ name, e = ImageErrors.GenericString ("Encoder \"" ++ name ++ "\" not found")) ∨
      e = ImageErrors.GenericStr "No encoder used") := by
  refine ⟨?_, rfl, ?_, ?_⟩
  · intro name m hname
    simp only [List.mem_cons, List.not_mem_nil, or_false] at hname
    push_neg at hname
    obtain ⟨h1, h2, h3, h4, h5, h6, h7⟩ := hname
    simp [encoder, h1, h2, h3, h4, h5, h6, h7]
  · intro name h
    exact ImageErrors.noConfusion h
  · intro ms e h
    obtain ⟨sub⟩ := ms
    rcases sub with _ | ⟨name, m⟩
    · simp only [encoder, RunResult.err.injEq] at h
      exact Or.inr h.symm
    · simp only [encoder] at h
      split at h <;>
        first
        | exact RunResult.noConfusion h
        | (rw [RunResult.err.injEq] at h
           exact Or.inl ⟨name, h.symm⟩)
        | (split at h <;>
            first
            | exact RunResult.noConfusion h
            | (rename_i heq
               exact absurd heq (buildMozOptions_no_err m _)))

/-- C9 witness: the theorem applied at an unrecognized name and at the
missing-subcommand input. -/
theorem C9_encoder_dispatch_errors_witness :
    encoder ⟨some ("webp", SubMatches.mk none none false false false none none false none none)⟩
      = RunResult.err (ImageErrors.GenericString "Encoder \"webp\" not found") :=
  C9_encoder_dispatch_errors.1 "webp"
    (SubMatches.mk none none false false false none none false none none) (by decide)

/-- C10: in the jpeg branch the builder-call results on the default options
are discarded, so for every combination of the quality and progressive
sub-options the returned encoder is constructed from options equal to
EncoderOptions::default. -/
theorem C10_jpeg_options_discarded :
    ∀ (m : SubMatches),
      encoder ⟨some ("jpeg", m)⟩
        = RunResult.ok (EncoderChoice.jpeg EncoderOptions.defaultOptions, "jpg") ∧
      buildJpegOptions m = EncoderOptions.defaultOptions := by
  intro m
  constructor
  · simp [encoder, buildJpegOptions]
  · simp [buildJpegOptions]

/-- C5: in the mozjpeg options, a requested table family attaches both its
luma and chroma base tables, the luma one scaled by quality and the chroma
one scaled by chroma_quality, where chroma_quality is the sub-option when
supplied and quality otherwise; no requested family leaves both unset. -/
theorem C5_mozjpeg_qtable_pairing :
    ∀ (m : SubMatches) (q : Nat) (csName : String) (cs : MozColorSpace),
      m.quality = some q →
      m.colorspace = some csName →
      parseMozColorSpace csName = some cs →
      ((∀ (famName : String) (lb cb : QTableBase),
        m.qtable = some famName →
        lumaQTableOf famName = some lb →
        chromaQTableOf famName = some cb →
        ∃ opts, buildMozOptions m = RunResult.ok opts ∧
          opts.luma_qtable = some (lb.scaled q q) ∧
          opts.chroma_qtable
            = some (cb.scaled (m.chroma_quality.getD q) (m.chroma_quality.getD q))) ∧
       (m.qtable = none →
        ∃ opts, buildMozOptions m = RunResult.ok opts ∧
          opts.luma_qtable = none ∧ opts.chroma_qtable = none)) := by
  intro m q csName cs hq hcs hparse
  constructor
  · intro famName lb cb hfam hlb hcb
    have hb : buildMozOptions m = RunResult.ok
        { quality := q
        , progressive := !m.baseline
        , optimize_coding := !m.no_optimize_coding
        , smoothing := m.smoothing.getD 0
        , color_space := cs
        , trellis_multipass := m.multipass
        , chroma_subsample := m.subsample
        , luma_qtable := some (lb.scaled q q)
        , chroma_qtable
            := some (cb.scaled (m.chroma_quality.getD q) (m.chroma_quality.getD q)) } := by
      simp only [buildMozOptions, hq, hcs, hparse, hfam, hlb, hcb]
      cases m.chroma_quality <;> rfl
    exact ⟨_, hb, rfl, rfl⟩
  · intro hfam
    have hb : buildMozOptions m = RunResult.ok
        { quality := q
        , progressive := !m.baseline
        , optimize_coding := !m.no_optimize_coding
        , smoothing := m.smoothing.getD 0
        , color_space := cs
        , trellis_multipass := m.multipass
        , chroma_subsample := m.subsample
        , luma_qtable := none
        , chroma_qtable := none } := by
      simp only [buildMozOptions, hq, hcs, hparse, hfam]
    exact ⟨_, hb, rfl, rfl⟩

/-- C5 witness: the theorem applied to a concrete mozjpeg configuration with
quality 80, chroma_quality 60 and the AnnexK family. -/
theorem C5_mozjpeg_qtable_pairing_witness :
    ∃ opts,
      buildMozOptions
        (SubMatches.mk (some 80) (some 60) false false false none
          (some "ycbcr") false none (some "AnnexK")) = RunResult.ok opts ∧
      opts.luma_qtable = some (QTableBase.AnnexK_Luma.scaled 80 80) ∧
      opts.chroma_qtable = some (QTableBase.AnnexK_Chroma.scaled 60 60) :=
  (C5_mozjpeg_qtable_pairing
    (SubMatches.mk (some 80) (some 60) false false false none
      (some "ycbcr") false none (some "AnnexK"))
    80 "ycbcr" MozColorSpace.JCS_YCbCr rfl rfl rfl).1
    "AnnexK" QTableBase.AnnexK_Luma QTableBase.AnnexK_Chroma rfl rfl rfl

/-! ## Claims about the codec adapters -/

/-- C7: grayscale, CMYK and YCCK input colorspaces force a matching output
colorspace with a warning, overriding the configured option; every other
input colorspace uses the configured option without warning; and an encode of
a grayscale image still proceeds to a successful result. -/
theorem C7_mozjpeg_colorspace_override :
    ∀ (opts : MozJpegOptions),
      outputColorSpace (csToMoz ColorSpace.Luma) opts.color_space
        = (MozColorSpace.JCS_GRAYSCALE, true) ∧
      outputColorSpace (csToMoz ColorSpace.CMYK) opts.color_space
        = (MozColorSpace.JCS_CMYK, true) ∧
      outputColorSpace (csToMoz ColorSpace.YCCK) opts.color_space
        = (MozColorSpace.JCS_YCCK, true) ∧
      outputColorSpace (csToMoz ColorSpace.RGB) opts.color_space
        = (opts.color_space, false) ∧
      outputColorSpace (csToMoz ColorSpace.RGBA) opts.color_space
        = (opts.color_space, false) ∧
      outputColorSpace (csToMoz ColorSpace.YCbCr) opts.color_space
        = (opts.color_space, false) ∧
      outputColorSpace (csToMoz ColorSpace.BGR) opts.color_space
        = (opts.color_space, false) ∧
      outputColorSpace (csToMoz ColorSpace.BGRA) opts.color_space
        = (opts.color_space, false) ∧
      outputColorSpace (csToMoz ColorSpace.ARGB) opts.color_space
        = (opts.color_space, false) ∧
      outputColorSpace (csToMoz ColorSpace.Unknown) opts.color_space
        = (opts.color_space, false) ∧
      outputColorSpace (csToMoz ColorSpace.LumaA) opts.color_space
        = (opts.color_space, false) ∧
      outputColorSpace (csToMoz ColorSpace.HSL) opts.color_space
        = (opts.color_space, false) ∧
      outputColorSpace (csToMoz ColorSpace.HSV) opts.color_space
        = (opts.color_space, false) ∧
      (encodeSettings opts lumaImage).outColorSpace = MozColorSpace.JCS_GRAYSCALE ∧
      (encodeSettings opts lumaImage).warnedOverride = true ∧
      mozjpegEncodeInner opts lumaImage mozNativeOk = RunResult.ok [7] := by
  intro opts
  refine ⟨rfl, rfl, rfl, rfl, rfl, rfl, rfl, rfl, rfl, rfl, rfl, rfl, rfl, rfl, rfl, rfl⟩

/-- C1 evaluation: when the wrapped native call panics, JpegliDecoder::decode
itself panics (the catch_unwind result is unwrapped, re-raising the captured
panic) instead of returning an error, while MozJpegEncoder::encode_inner
converts the panic into a classified EncodeErrors value and can never
propagate a panic of the wrapped calls. -/
theorem C1_jpegli_repanics_mozjpeg_converts :
    jpegliDecode jpegliNativePanics
      = RunResult.panic (PanicPayload.str unwrapPanicMessage) ∧
    (∀ (opts : MozJpegOptions) (img : Image),
      mozjpegEncodeInner opts img mozNativePanics
        = RunResult.err (ImageErrors.EncodeErrors (ImgEncodeErrors.Generic "native fault"))) ∧
    (∀ (opts : MozJpegOptions) (img : Image) (nb : MozNative) (p : PanicPayload),
      mozjpegEncodeInner opts img nb ≠ RunResult.panic p) := by
  refine ⟨rfl, fun opts img => rfl, ?_⟩
  intro opts img nb p h
  unfold mozjpegEncodeInner at h
  split at h
  · exact RunResult.noConfusion h
  · exact RunResult.noConfusion h
  · exact RunResult.noConfusion h
  · exact RunResult.noConfusion h

/-- C1 witness: the no-panic part of the theorem applied at a concrete
panicking behavior. -/
theorem C1_jpegli_repanics_mozjpeg_converts_witness :
    mozjpegEncodeInner MozJpegOptions.defaultOptions lumaImage mozNativePanics
      ≠ RunResult.panic (PanicPayload.str "native fault") :=
  C1_jpegli_repanics_mozjpeg_converts.2.2 MozJpegOptions.defaultOptions lumaImage
    mozNativePanics (PanicPayload.str "native fault")

/-- C8: the problematic-variant predicate holds for exactly the four listed
native colorspaces; for a decompressor reporting any native colorspace the
decode processes the forced JCS_YCbCr conversion exactly when the predicate
holds and the raw scanline source otherwise; and the canonical mapping sends
every unmapped/ambiguous native variant to Unknown rather than failing. -/
theorem C8_jpegli_forced_conversion :
    (∀ (cs : JpegliColorSpace),
      shouldTransformColorSpace cs
        = (cs == JpegliColorSpace.JCS_EXT_XBGR || cs == JpegliColorSpace.JCS_EXT_XRGB
            || cs == JpegliColorSpace.JCS_EXT_ABGR || cs == JpegliColorSpace.JCS_RGB565)) ∧
    (∀ (nb : JpegliNative) (cs : JpegliColorSpace),
      jpegliDecode { nb with fromMem := RunResult.ok ⟨cs⟩ }
        = jpegliProcessSource nb
            (if shouldTransformColorSpace cs then
              nb.toColorSpace JpegliColorSpace.JCS_YCbCr
            else nb.rawDecode)) ∧
    jpegliToCanonical JpegliColorSpace.JCS_EXT_XBGR = ColorSpace.Unknown ∧
    jpegliToCanonical JpegliColorSpace.JCS_EXT_XRGB = ColorSpace.Unknown ∧
    jpegliToCanonical JpegliColorSpace.JCS_EXT_ABGR = ColorSpace.Unknown ∧
    jpegliToCanonical JpegliColorSpace.JCS_RGB565 = ColorSpace.Unknown ∧
    jpegliToCanonical JpegliColorSpace.JCS_UNKNOWN = ColorSpace.Unknown := by
  refine ⟨?_, ?_, rfl, rfl, rfl, rfl, rfl⟩
  · intro cs
    cases cs <;> rfl
  · intro nb cs
    cases hc : shouldTransformColorSpace cs <;>
      simp [jpegliDecode, jpegliDecodeBody, jpegliProcessSource, RunResult.andThen, hc]

/-! ## Claims about the operation pipeline builder -/

/-- Membership after a sorted insert: an element of the result is the
inserted pair or an element of the original list. -/
theorem mem_btInsert {k : Nat} {v : Operation} {x : Nat × Operation} :
    ∀ {l : List (Nat × Operation)}, x ∈ btInsert k v l → x = (k, v) ∨ x ∈ l := by
  intro l
  induction l with
  | nil =>
    intro h
    simp only [btInsert, List.mem_singleton] at h
    exact Or.inl h
  | cons hd tl ih =>
    obtain ⟨k₀, v₀⟩ := hd
    intro h
    simp only [btInsert] at h
    split at h
    · rcases List.mem_cons.mp h with h | h
      · exact Or.inl h
      · exact Or.inr h
    · split at h
      · rcases List.mem_cons.mp h with h | h
        · exact Or.inl h
        · exact Or.inr (List.mem_cons_of_mem _ h)
      · rcases List.mem_cons.mp h with h | h
        · exact Or.inr (List.mem_cons.mpr (Or.inl h))
        · rcases ih h with h | h
          · exact Or.inl h
          · exact Or.inr (List.mem_cons_of_mem _ h)

/-- Sorted insert preserves the strictly-increasing-key invariant. -/
theorem btInsert_pairwise {k : Nat} {v : Operation} :
    ∀ {l : List (Nat × Operation)},
      l.Pairwise (fun a b => a.1 < b.1) →
      (btInsert k v l).Pairwise (fun a b => a.1 < b.1) := by
  intro l
  induction l with
  | nil =>
    intro h
    simp [btInsert]
  | cons hd tl ih =>
    obtain ⟨k₀, v₀⟩ := hd
    intro hp
    rw [List.pairwise_cons] at hp
    obtain ⟨hhead, htail⟩ := hp
    simp only [btInsert]
    split
    · rename_i h1
      rw [List.pairwise_cons]
      refine ⟨?_, ?_⟩
      · intro x hx
        rcases List.mem_cons.mp hx with rfl | hx
        · exact h1
        · exact Nat.lt_trans h1 (hhead x hx)
      · rw [List.pairwise_cons]
        exact ⟨hhead, htail⟩
    · split
      · rename_i h1 h2
        subst h2
        rw [List.pairwise_cons]
        exact ⟨hhead, htail⟩
      · rename_i h1 h2
        have hk : k₀ < k := by omega
        rw [List.pairwise_cons]
        refine ⟨?_, ih htail⟩
        intro x hx
        rcases mem_btInsert hx with rfl | hx
        · exact hk
        · exact hhead x hx

/-- Folding sorted inserts over any entry list preserves the
strictly-increasing-key invariant of the accumulator. -/
theorem foldl_btInsert_pairwise (entries : List (Nat × Operation)) :
    ∀ (acc : List (Nat × Operation)), acc.Pairwise (fun a b => a.1 < b.1) →
      (entries.foldl (fun acc p => btInsert p.1 p.2 acc) acc).Pairwise
        (fun a b => a.1 < b.1) := by
  induction entries with
  | nil =>
    intro acc h
    exact h
  | cons hd tl ih =>
    intro acc h
    exact ih _ (btInsert_pairwise h)

/-- C3: iterating the mapping returned by operations always yields its
entries in strictly increasing argument-slot-index order regardless of
operation kind; concretely, with resize at index 2 and quantize at index 0
the quantize entry precedes the resize entry, and swapping the indices swaps
that order. -/
theorem C3_operations_sorted_by_index :
    (∀ (m : OpMatches) (img : Image),
      (operations m img).Pairwise (fun a b => a.1 < b.1)) ∧
    operations mA exampleImage
      = [(0, Operation.quantize 7 none), (2, Operation.resize 4 3 ResizeAlg.defaultAlg)] ∧
    operations mB exampleImage
      = [(0, Operation.resize 4 3 ResizeAlg.defaultAlg), (2, Operation.quantize 7 none)] := by
  refine ⟨?_, rfl, rfl⟩
  intro m img
  exact foldl_btInsert_pairwise _ _ List.Pairwise.nil

/-- C6: every resize occurrence is built from its occurrence value resolved
against the dimensions the image has when operations is called, the same
pair for every occurrence, with the default resampling algorithm when the
filter sub-option is absent. -/
theorem C6_resize_build_time_dimensions :
    ∀ (m : OpMatches) (img : Image) (vs : List (ResizeValue × Nat)),
      m.resize = some vs → m.filter = none →
      resizeEntries m img = vs.map (fun p =>
        (p.2, Operation.resize
          (p.1.mapDimensions img.dimensions.1 img.dimensions.2).1
          (p.1.mapDimensions img.dimensions.1 img.dimensions.2).2
          ResizeAlg.defaultAlg)) := by
  intro m img vs hr hf
  simp [resizeEntries, hr, hf]

/-- C6 witness: the theorem applied to the concrete configuration with one
resize occurrence at index 2 on the 4 by 3 image. -/
theorem C6_resize_build_time_dimensions_witness :
    resizeEntries mA exampleImage = [(rv, 2)].map (fun p =>
      (p.2, Operation.resize
        (p.1.mapDimensions exampleImage.dimensions.1 exampleImage.dimensions.2).1
        (p.1.mapDimensions exampleImage.dimensions.1 exampleImage.dimensions.2).2
        ResizeAlg.defaultAlg)) :=
  C6_resize_build_time_dimensions mA exampleImage [(rv, 2)] rfl rfl

end Rimage
